import Mathlib

/-!
Verification of the nova-hub dashboard aggregation logic
(`src/pages/Dashboard.tsx`): the recurrence activation-window test
`isRecurrenceActiveForMonth`, the dashboard aggregates (`totalRecurrence`,
`deliveryPendingCount`, the 7-day completion chart, the 6-month recurrence
trend, the conversion rate) and the published statistics snapshot.

Dates are modelled at calendar-day granularity (`CalDate`).  Every date
comparison in the source happens after `startOfDay` normalization (or against
`startOfMonth`/`endOfMonth` boundaries), so a start-of-day timestamp is after
an `endOfMonth` timestamp exactly when its calendar date is after the last day
of the month, and before a `startOfMonth` timestamp exactly when its calendar
date is before the first day of the month; the day-granularity model is exact
for the computations in scope.  Timestamp-valued fields (`created_at`) are
modelled by their calendar date, which is what `startOfDay(parseISO(...))`
extracts.  Currency amounts (JS numbers) are modelled as rationals.
-/

/-- A calendar date: year, month (1-12), day (1-31). -/
structure CalDate where
  year : Int
  month : Nat
  day : Nat
deriving DecidableEq, Repr

/-- Lexicographic strict order on calendar dates (chronological order). -/
def dateLtB (a b : CalDate) : Bool :=
  a.year < b.year ||
    (a.year == b.year &&
      (a.month < b.month || (a.month == b.month && a.day < b.day)))

/-- date-fns `isBefore a b`: `a` is strictly earlier than `b`. -/
def isBefore (a b : CalDate) : Bool := dateLtB a b

/-- date-fns `isAfter a b`: `a` is strictly later than `b`. -/
def isAfter (a b : CalDate) : Bool := dateLtB b a

/-- Gregorian leap-year rule. -/
def isLeapYear (y : Int) : Bool :=
  (y % 4 == 0 && y % 100 != 0) || y % 400 == 0

/-- Number of days in a given month of a given year. -/
def daysInMonth (y : Int) (m : Nat) : Nat :=
  if m = 2 then (if isLeapYear y then 29 else 28)
  else if m = 4 ∨ m = 6 ∨ m = 9 ∨ m = 11 then 30
  else 31

/-- date-fns `startOfMonth`, at day granularity: the first day of the month. -/
def startOfMonth (d : CalDate) : CalDate := ⟨d.year, d.month, 1⟩

/-- date-fns `endOfMonth`, at day granularity: the last day of the month. -/
def endOfMonth (d : CalDate) : CalDate :=
  ⟨d.year, d.month, daysInMonth d.year d.month⟩

/-- date-fns `subMonths d n`: go back `n` calendar months, clamping the day
to the length of the target month. -/
def subMonthsDate (d : CalDate) (n : Nat) : CalDate :=
  let idx : Int := d.year * 12 + (d.month : Int) - 1 - (n : Int)
  let y : Int := idx / 12
  let m : Nat := (idx % 12).toNat + 1
  ⟨y, m, min d.day (daysInMonth y m)⟩

/-- The day before a given date. -/
def prevDay (d : CalDate) : CalDate :=
  if d.day > 1 then ⟨d.year, d.month, d.day - 1⟩
  else if d.month > 1 then ⟨d.year, d.month - 1, daysInMonth d.year (d.month - 1)⟩
  else ⟨d.year - 1, 12, 31⟩

/-- date-fns `subDays d n`: go back `n` calendar days. -/
def subDaysDate (d : CalDate) : Nat → CalDate
  | 0 => d
  | n + 1 => prevDay (subDaysDate d n)

/-- Days since 1970-01-01 (civil-calendar day number). -/
def daysFromCivil (d : CalDate) : Int :=
  let y : Int := if d.month ≤ 2 then d.year - 1 else d.year
  let era : Int := y / 400
  let yoe : Int := y - era * 400
  let mp : Int := (d.month : Int) + (if d.month > 2 then -3 else 9)
  let doy : Int := (153 * mp + 2) / 5 + (d.day : Int) - 1
  let doe : Int := yoe * 365 + yoe / 4 - yoe / 100 + doy
  era * 146097 + doe - 719468

/-- Day of week, 0 = Sunday .. 6 = Saturday. -/
def weekdayIdx (d : CalDate) : Nat := ((daysFromCivil d + 4) % 7).toNat

/-- `format(date, 'EEE', \x7b locale: ptBR \x7d)`: abbreviated pt-BR weekday. -/
def dayLabel (d : CalDate) : String :=
  ["dom", "seg", "ter", "qua", "qui", "sex", "sáb"].getD (weekdayIdx d) ""

/-- `format(date, 'MMM', \x7b locale: ptBR \x7d)`: abbreviated pt-BR month. -/
def monthLabel (d : CalDate) : String :=
  ["jan", "fev", "mar", "abr", "mai", "jun",
   "jul", "ago", "set", "out", "nov", "dez"].getD (d.month - 1) ""

/-- The `Implementation` record selected by the dashboard query
(`id, recurrence_value, recurrence_start_date, recurrence_end_date,
status, delivery_completed, created_at`). -/
structure Implementation where
  id : String
  recurrence_value : Option Rat
  recurrence_start_date : Option CalDate
  recurrence_end_date : Option CalDate
  status : String
  delivery_completed : Bool
  created_at : CalDate
deriving DecidableEq, Repr

/-- `isRecurrenceActiveForMonth` (Dashboard.tsx, lines 124-142).
`!impl.recurrence_value` is JS falsiness: true for `null` and for `0`,
modelled as `recurrence_value.getD 0 = 0`. -/
def isRecurrenceActiveForMonth (impl : Implementation) (monthDate : CalDate) : Bool :=
  if impl.recurrence_value.getD 0 = 0 ∨ impl.status ≠ "active" then false
  else
    let monthStart := startOfMonth monthDate
    let monthEnd := endOfMonth monthDate
    let startDate := impl.recurrence_start_date.getD impl.created_at
    if isAfter startDate monthEnd then false
    else
      match impl.recurrence_end_date with
      | some e => if isBefore e monthStart then false else true
      | none => true

/-- `totalRecurrence` (Dashboard.tsx, lines 190-192): sum of
`recurrence_value || 0` over the implementations passing the eligibility
test for the month of `today`. -/
def totalRecurrence (implementations : List Implementation) (today : CalDate) : Rat :=
  (implementations.filter (fun impl => isRecurrenceActiveForMonth impl today)).foldl
    (fun acc i => acc + i.recurrence_value.getD 0) 0

/-- `deliveryPendingCount` (Dashboard.tsx, line 194). -/
def deliveryPendingCount (implementations : List Implementation) : Nat :=
  (implementations.filter (fun i => i.status == "active" && !i.delivery_completed)).length

/-- One point of the 6-month recurrence trend. -/
structure RecurrenceData where
  month : String
  value : Rat
deriving DecidableEq, Repr

/-- `recurrenceChartData` (Dashboard.tsx, lines 212-222): for each of the six
calendar months ending at the month of `today`, the recurrence total for that
month. -/
def recurrenceChartData (implementations : List Implementation) (today : CalDate) :
    List RecurrenceData :=
  (List.range 6).map (fun i =>
    let month := subMonthsDate today (5 - i)
    let expected :=
      (implementations.filter (fun impl => isRecurrenceActiveForMonth impl month)).foldl
        (fun acc impl => acc + impl.recurrence_value.getD 0) 0
    { month := monthLabel month, value := expected })

/-- `last7Days` (Dashboard.tsx, lines 154-157): the seven calendar dates
ending at `today`, oldest first. -/
def last7Days (today : CalDate) : List CalDate :=
  (List.range 7).map (fun i => subDaysDate today (6 - i))

/-- One step of building the `tasksByDate` record
(`tasksByDate[t] = (tasksByDate[t] || 0) + 1`, Dashboard.tsx line 199):
increment the entry for key `t`, creating it at 1 if absent. -/
def bumpDate : List (CalDate × Nat) → CalDate → List (CalDate × Nat)
  | [], t => [(t, 1)]
  | (k, v) :: rest, t =>
    if k = t then (k, v + 1) :: rest else (k, v) :: bumpDate rest t

/-- `tasksByDate` (Dashboard.tsx, lines 197-200): the per-date tally of the
completed-task dates, as a key-count association list. -/
def tasksByDate (dates : List CalDate) : List (CalDate × Nat) :=
  dates.foldl bumpDate []

/-- Record lookup with JS `|| 0` defaulting (`tasksByDate[dateStr] || 0`). -/
def lookupCountD : List (CalDate × Nat) → CalDate → Nat
  | [], _ => 0
  | (k, v) :: rest, d => if k = d then v else lookupCountD rest d

/-- One point of the 7-day completion chart. -/
structure ChartData where
  day : String
  date : CalDate
  completed : Nat
deriving DecidableEq, Repr

/-- `chartDataProcessed` (Dashboard.tsx, lines 202-209): one entry per date of
`last7Days`, whose count is the tally for that date, defaulting to 0. -/
def chartDataProcessed (taskDatesLast7Days : List CalDate) (today : CalDate) :
    List ChartData :=
  (last7Days today).map (fun d =>
    { day := dayLabel d, date := d,
      completed := lookupCountD (tasksByDate taskDatesLast7Days) d })

/-- `conversionRate` (Dashboard.tsx, lines 244-246). -/
def conversionRate (prospectsTotal prospectsConverted : Nat) : Int :=
  if prospectsTotal > 0 then
    round (((prospectsConverted : Rat) / (prospectsTotal : Rat)) * 100)
  else 0

/-- The published dashboard statistics snapshot (`DashboardStats`). -/
structure DashboardStats where
  tasksToday : Int
  tasksCompletedToday : Int
  tasksCompletedWeek : Int
  prospectsTotal : Int
  prospectsConverted : Int
  totalRecurrence : Rat
  deliveryPendingCount : Nat
deriving DecidableEq, Repr

/-- The `setStats` argument (Dashboard.tsx, lines 224-232): each pre-fetched
count (`number | null` in the store client) is published with `count || 0`
defaulting.  `count || 0` and `Option.getD 0` agree: both send `null` to 0
and keep every nonzero number. -/
def buildStats (tasksTodayCount tasksCompletedTodayCount tasksCompletedWeekCount
    prospectsTotalCount prospectsConvertedCount : Option Int)
    (totalRec : Rat) (deliveryPending : Nat) : DashboardStats :=
  { tasksToday := tasksTodayCount.getD 0
    tasksCompletedToday := tasksCompletedTodayCount.getD 0
    tasksCompletedWeek := tasksCompletedWeekCount.getD 0
    prospectsTotal := prospectsTotalCount.getD 0
    prospectsConverted := prospectsConvertedCount.getD 0
    totalRecurrence := totalRec
    deliveryPendingCount := deliveryPending }

/-! ## Helper lemmas -/

/-- Unfolding characterization of the eligibility test: it accepts exactly
when the amount guard, the status guard, the start-date test and the
end-date test all pass. -/
lemma isActive_iff_core (impl : Implementation) (m : CalDate) :
    isRecurrenceActiveForMonth impl m = true ↔
      (impl.recurrence_value.getD 0 ≠ 0 ∧ impl.status = "active" ∧
        isAfter (impl.recurrence_start_date.getD impl.created_at) (endOfMonth m) = false ∧
        (impl.recurrence_end_date = none ∨
          ∃ e, impl.recurrence_end_date = some e ∧
            isBefore e (startOfMonth m) = false)) := by
  unfold isRecurrenceActiveForMonth
  cases he : impl.recurrence_end_date <;> split_ifs <;> simp_all <;> tauto

/-- A left fold adding `f` over a list, started at `a`, is `a` plus the sum
of the mapped list. -/
lemma foldl_add_map_sum {α : Type} (f : α → Rat) (l : List α) (a : Rat) :
    l.foldl (fun acc i => acc + f i) a = a + (l.map f).sum := by
  induction l generalizing a with
  | nil => simp
  | cons x xs ih => simp [ih, add_assoc]

/-- Summing `f` over a filtered list equals summing the pointwise
`if p then f else 0` over the whole list. -/
lemma filter_map_sum_eq {α : Type} (p : α → Bool) (f : α → Rat) (l : List α) :
    ((l.filter p).map f).sum
      = (l.map (fun i => if p i then f i else 0)).sum := by
  induction l with
  | nil => rfl
  | cons x xs ih => by_cases h : p x <;> simp [h, ih]

/-! ## Claims -/

/-- The eligibility predicate exactly as claim C1 words it, positivity
included: a positive recurring amount (absent treated as 0), status active,
effective start date not after the last day of the month, and no end date or
an end date not before the first day of the month. -/
def claimC1Eligible (impl : Implementation) (m : CalDate) : Prop :=
  0 < impl.recurrence_value.getD 0 ∧ impl.status = "active" ∧
    isAfter (impl.recurrence_start_date.getD impl.created_at) (endOfMonth m) = false ∧
    (impl.recurrence_end_date = none ∨
      ∃ e, impl.recurrence_end_date = some e ∧ isBefore e (startOfMonth m) = false)

/-- An active implementation with a strictly negative recurring amount and an
open date window. -/
def implC1neg : Implementation :=
  ⟨"c1", some (-50), some ⟨2024, 1, 1⟩, none, "active", false, ⟨2023, 1, 1⟩⟩

/-- C1, counterexample: the eligibility test accepts an implementation whose
recurring amount is strictly negative, so "returns true if and only if the
implementation has a positive recurring amount and ..." fails as stated: the
left side holds and the right side does not. -/
theorem claimC1_counterexample :
    isRecurrenceActiveForMonth implC1neg ⟨2024, 6, 15⟩ = true ∧
      ¬ claimC1Eligible implC1neg ⟨2024, 6, 15⟩ := by
  constructor
  · decide
  · intro h
    exact absurd h.1 (by decide)

/-- C1 (amended): the eligibility test returns true if and only if the
implementation has a nonzero, non-null recurring amount, status active, its
effective start date (explicit start date if present, else creation date) is
not after the last day of the month, and it has no end date or its end date
is not before the first day of the month. -/
theorem claimC1_amended_iff (impl : Implementation) (m : CalDate) :
    isRecurrenceActiveForMonth impl m = true ↔
      (impl.recurrence_value.getD 0 ≠ 0 ∧ impl.status = "active" ∧
        isAfter (impl.recurrence_start_date.getD impl.created_at) (endOfMonth m) = false ∧
        (impl.recurrence_end_date = none ∨
          ∃ e, impl.recurrence_end_date = some e ∧
            isBefore e (startOfMonth m) = false)) :=
  isActive_iff_core impl m

/-- C2: an implementation whose status is not `active`, or whose recurring
amount is absent or zero, is never recurrence-eligible, for any month and
regardless of its dates. -/
theorem claimC2_inactive_or_zero_never_eligible (impl : Implementation) (m : CalDate)
    (h : impl.status ≠ "active" ∨ impl.recurrence_value = none ∨
      impl.recurrence_value = some 0) :
    isRecurrenceActiveForMonth impl m = false := by
  unfold isRecurrenceActiveForMonth
  rcases h with h | h | h <;> simp [h]

/-- C2 witness: an implementation with a pending status is not eligible even
though its dates cover the month. -/
theorem claimC2_witness :
    isRecurrenceActiveForMonth
      ⟨"w2", some 10, some ⟨2024, 1, 1⟩, none, "pending", false, ⟨2023, 1, 1⟩⟩
      ⟨2024, 6, 15⟩ = false :=
  claimC2_inactive_or_zero_never_eligible _ _ (Or.inl (by decide))

/-- C3: the current-month recurrence total is the sum of recurring amounts
over exactly the implementations passing the eligibility test for `today`:
it equals the sum over the eligible sublist, and equally the full-list sum in
which every ineligible implementation contributes 0. -/
theorem claimC3_totalRecurrence_eq_sum (impls : List Implementation) (today : CalDate) :
    totalRecurrence impls today
        = ((impls.filter (fun i => isRecurrenceActiveForMonth i today)).map
            (fun i => i.recurrence_value.getD 0)).sum ∧
      totalRecurrence impls today
        = (impls.map (fun i =>
            if isRecurrenceActiveForMonth i today then i.recurrence_value.getD 0
            else 0)).sum := by
  constructor
  · simp [totalRecurrence, foldl_add_map_sum]
  · simp [totalRecurrence, foldl_add_map_sum, filter_map_sum_eq]

/-- C4: the 6-month recurrence trend has exactly 6 entries, and it is the
sequence, oldest to newest, whose i-th entry is labelled with the month
`5 - i` months before the month of `today` and carries the sum of recurring
amounts over the implementations eligible for that month. -/
theorem claimC4_recurrenceChartData_spec (impls : List Implementation) (today : CalDate) :
    (recurrenceChartData impls today).length = 6 ∧
      recurrenceChartData impls today
        = (List.range 6).map (fun i =>
            { month := monthLabel (subMonthsDate today (5 - i)),
              value := ((impls.filter (fun impl =>
                  isRecurrenceActiveForMonth impl (subMonthsDate today (5 - i)))).map
                  (fun impl => impl.recurrence_value.getD 0)).sum : RecurrenceData }) := by
  constructor
  · simp [recurrenceChartData]
  · unfold recurrenceChartData
    refine List.map_congr_left ?_
    intro i _
    simp [foldl_add_map_sum]

/-- Looking a key up after one record-increment step: the tally for `d`
grows by one exactly when the inserted key is `d`. -/
lemma lookupCountD_bumpDate (acc : List (CalDate × Nat)) (t d : CalDate) :
    lookupCountD (bumpDate acc t) d
      = lookupCountD acc d + (if t = d then 1 else 0) := by
  induction acc with
  | nil =>
    simp only [bumpDate, lookupCountD]
    by_cases h : t = d <;> simp [h]
  | cons kv rest ih =>
    obtain ⟨k, v⟩ := kv
    by_cases hkt : k = t
    · subst hkt
      by_cases hkd : k = d <;> simp [bumpDate, lookupCountD, hkd]
    · by_cases hkd : k = d
      · have htd : ¬ t = d := by
          intro h
          exact hkt (by rw [hkd, h])
        have hdt : ¬ d = t := fun hh => htd hh.symm
        simp [bumpDate, lookupCountD, hkt, hkd, htd, hdt]
      · simp [bumpDate, lookupCountD, hkt, hkd, ih]

/-- Folding the record-building step over a date list, from any accumulator:
each key's tally grows by its number of occurrences in the list. -/
lemma lookupCountD_foldl_bumpDate (dates : List CalDate)
    (acc : List (CalDate × Nat)) (d : CalDate) :
    lookupCountD (dates.foldl bumpDate acc) d
      = lookupCountD acc d + dates.count d := by
  induction dates generalizing acc with
  | nil => simp
  | cons t rest ih =>
    have hcount : (t :: rest).count d = rest.count d + (if t = d then 1 else 0) := by
      by_cases h : t = d
      · simp [List.count_cons, h]
      · have h2 : ¬ d = t := fun hh => h hh.symm
        simp [List.count_cons, h, h2]
    simp only [List.foldl_cons, ih, lookupCountD_bumpDate, hcount]
    omega

/-- The `tasksByDate` record tallies occurrences: looking up a date with
`|| 0` defaulting yields its multiplicity in the input list. -/
lemma lookupCountD_tasksByDate (dates : List CalDate) (d : CalDate) :
    lookupCountD (tasksByDate dates) d = dates.count d := by
  simpa [tasksByDate, lookupCountD] using lookupCountD_foldl_bumpDate dates [] d

/-- C5: the 7-day completion chart has exactly 7 entries, its i-th entry is
the calendar date `6 - i` days before `today` (so the sequence runs oldest to
newest, ending at `today`) and carries the number of input task dates equal
to that date (0 when none match); and on the concrete input
["2024-05-01", "2024-05-01", "2024-05-03"] with today = 2024-05-04 the series
is 0,0,0,2,0,1,0 over 2024-04-28 .. 2024-05-04 in date order. -/
theorem claimC5_chartDataProcessed_spec :
    (∀ (taskDates : List CalDate) (today : CalDate),
        (chartDataProcessed taskDates today).length = 7 ∧
          chartDataProcessed taskDates today
            = (List.range 7).map (fun i =>
                { day := dayLabel (subDaysDate today (6 - i)),
                  date := subDaysDate today (6 - i),
                  completed := taskDates.count (subDaysDate today (6 - i)) : ChartData })) ∧
      (chartDataProcessed [⟨2024, 5, 1⟩, ⟨2024, 5, 1⟩, ⟨2024, 5, 3⟩] ⟨2024, 5, 4⟩).map
          (fun c => (c.date, c.completed))
        = [(⟨2024, 4, 28⟩, 0), (⟨2024, 4, 29⟩, 0), (⟨2024, 4, 30⟩, 0),
           (⟨2024, 5, 1⟩, 2), (⟨2024, 5, 2⟩, 0), (⟨2024, 5, 3⟩, 1),
           (⟨2024, 5, 4⟩, 0)] := by
  constructor
  · intro taskDates today
    constructor
    · simp [chartDataProcessed, last7Days]
    · simp [chartDataProcessed, last7Days, lookupCountD_tasksByDate]
  · decide

/-- C6: the delivery-pending count is the number of implementations that are
both active and undelivered — every such implementation contributes 1 and
every other implementation contributes 0 — and prepending an implementation
that is delivered or not active leaves the count unchanged. -/
theorem claimC6_deliveryPendingCount_spec :
    (∀ impls : List Implementation,
        deliveryPendingCount impls
          = (impls.map (fun i =>
              if i.status = "active" ∧ i.delivery_completed = false then 1 else 0)).sum) ∧
      (∀ (impls : List Implementation) (x : Implementation),
        x.status ≠ "active" ∨ x.delivery_completed = true →
          deliveryPendingCount (x :: impls) = deliveryPendingCount impls) := by
  constructor
  · intro impls
    induction impls with
    | nil => rfl
    | cons x xs ih =>
      by_cases h1 : x.status = "active" <;> by_cases h2 : x.delivery_completed <;>
        simp [deliveryPendingCount, List.filter_cons, h1, h2] at ih ⊢ <;> omega
  · intro impls x hx
    have hcond : (x.status == "active" && !x.delivery_completed) = false := by
      rcases hx with h | h <;> simp [h]
    simp [deliveryPendingCount, List.filter_cons, hcond]

/-- An active implementation whose delivery is already completed. -/
def implC6delivered : Implementation :=
  ⟨"w6", some 10, none, none, "active", true, ⟨2023, 1, 1⟩⟩

/-- C6 witness: an active-but-delivered implementation does not change the
delivery-pending count. -/
theorem claimC6_witness :
    deliveryPendingCount [implC6delivered] = deliveryPendingCount [] :=
  claimC6_deliveryPendingCount_spec.2 [] implC6delivered (Or.inr rfl)

/-- C7: the conversion rate is `round(converted / total * 100)` whenever the
total is positive, and is 0 when the total is 0; in this model division is
total, so the value is a well-defined integer for every input. -/
theorem claimC7_conversionRate_spec (prospectsTotal prospectsConverted : Nat) :
    (0 < prospectsTotal →
      conversionRate prospectsTotal prospectsConverted
        = round (((prospectsConverted : Rat) / (prospectsTotal : Rat)) * 100)) ∧
    (prospectsTotal = 0 → conversionRate prospectsTotal prospectsConverted = 0) := by
  constructor
  · intro h
    simp [conversionRate, h]
  · intro h
    simp [conversionRate, h]

/-- C7 witness: 1 converted of 4 total gives 25; 0 total gives 0. -/
theorem claimC7_witness :
    conversionRate 4 1 = 25 ∧ conversionRate 0 5 = 0 := by
  constructor
  · have h := (claimC7_conversionRate_spec 4 1).1 (by decide)
    rw [h]
    norm_num [round_eq]
  · exact (claimC7_conversionRate_spec 0 5).2 rfl

/-- The C8 scenario: active, positive recurring amount, explicit start
2024-01-01 and explicit end 2024-03-15. -/
def implC8 : Implementation :=
  ⟨"c8", some 200, some ⟨2024, 1, 1⟩, some ⟨2024, 3, 15⟩, "active", false, ⟨2023, 12, 1⟩⟩

/-- C8: the 2024-01-01 .. 2024-03-15 implementation is eligible for January,
February and March 2024 and not for April 2024; and in general, once the
amount, status and start-date guards pass and an end date is present, the
test rejects a month exactly when that end date is strictly before the first
day of the month. -/
theorem claimC8_endDate_cutoff :
    (isRecurrenceActiveForMonth implC8 ⟨2024, 1, 10⟩ = true ∧
      isRecurrenceActiveForMonth implC8 ⟨2024, 2, 10⟩ = true ∧
      isRecurrenceActiveForMonth implC8 ⟨2024, 3, 10⟩ = true ∧
      isRecurrenceActiveForMonth implC8 ⟨2024, 4, 10⟩ = false) ∧
    (∀ (impl : Implementation) (m e : CalDate),
      impl.recurrence_value.getD 0 ≠ 0 →
      impl.status = "active" →
      isAfter (impl.recurrence_start_date.getD impl.created_at) (endOfMonth m) = false →
      impl.recurrence_end_date = some e →
      (isRecurrenceActiveForMonth impl m = false ↔
        isBefore e (startOfMonth m) = true)) := by
  constructor
  · exact ⟨by decide, by decide, by decide, by decide⟩
  · intro impl m e h1 h2 h3 h4
    have hcore := isActive_iff_core impl m
    constructor
    · intro hfalse
      by_contra hnb
      have ht : isRecurrenceActiveForMonth impl m = true := by
        rw [hcore]
        exact ⟨h1, h2, h3, Or.inr ⟨e, h4, by simpa using hnb⟩⟩
      rw [ht] at hfalse
      exact Bool.noConfusion hfalse
    · intro hb
      cases hact : isRecurrenceActiveForMonth impl m with
      | false => rfl
      | true =>
        exfalso
        rcases (hcore.mp hact).2.2.2 with hnone | ⟨e2, he2, hnb⟩
        · rw [h4] at hnone
          exact Option.noConfusion hnone
        · rw [h4] at he2
          have hee : e = e2 := Option.some.inj he2
          rw [← hee] at hnb
          exact Bool.noConfusion (hb.symm.trans hnb)

/-- C8 witness: the general end-date characterization applied to the C8
scenario and April 2024 yields ineligibility. -/
theorem claimC8_witness :
    isRecurrenceActiveForMonth implC8 ⟨2024, 4, 10⟩ = false :=
  (claimC8_endDate_cutoff.2 implC8 ⟨2024, 4, 10⟩ ⟨2024, 3, 15⟩
    (by decide) rfl (by decide) rfl).mpr (by decide)

/-- An active implementation with recurring amount 100 and an open window. -/
def implC9pos : Implementation :=
  ⟨"c9p", some 100, some ⟨2024, 1, 1⟩, none, "active", false, ⟨2023, 1, 1⟩⟩

/-- An active implementation with a strictly negative recurring amount (-30)
and an open window. -/
def implC9neg : Implementation :=
  ⟨"c9n", some (-30), some ⟨2024, 1, 1⟩, none, "active", false, ⟨2023, 1, 1⟩⟩

/-- C9: the amount guard only rejects absent or zero amounts: an active
implementation with amount -30 and a window covering June 2024 passes the
eligibility test, and its negative amount is added to the monthly total,
lowering it from 100 to 70. -/
theorem claimC9_negative_amount_passes :
    isRecurrenceActiveForMonth implC9neg ⟨2024, 6, 10⟩ = true ∧
      implC9neg.recurrence_value.getD 0 < 0 ∧
      totalRecurrence [implC9pos] ⟨2024, 6, 10⟩ = 100 ∧
      totalRecurrence [implC9pos, implC9neg] ⟨2024, 6, 10⟩ = 100 + (-30 : Rat) := by
  refine ⟨by decide, by decide, ?_, ?_⟩ <;>
    norm_num [totalRecurrence, isRecurrenceActiveForMonth, implC9pos, implC9neg,
      isAfter, dateLtB, endOfMonth, startOfMonth, daysInMonth]

/-- C10: every count field of the published snapshot is the `|| 0` default of
its pre-fetched count: a `null` count is published as 0, and when every
present count is non-negative (as row counts are), every published count
field is non-negative. -/
theorem claimC10_buildStats_counts (a b c d e : Option Int) (tr : Rat) (dp : Nat)
    (h : ∀ o ∈ [a, b, c, d, e], ∀ x : Int, o = some x → 0 ≤ x) :
    (0 ≤ (buildStats a b c d e tr dp).tasksToday ∧
      0 ≤ (buildStats a b c d e tr dp).tasksCompletedToday ∧
      0 ≤ (buildStats a b c d e tr dp).tasksCompletedWeek ∧
      0 ≤ (buildStats a b c d e tr dp).prospectsTotal ∧
      0 ≤ (buildStats a b c d e tr dp).prospectsConverted) ∧
    ((a = none → (buildStats a b c d e tr dp).tasksToday = 0) ∧
      (b = none → (buildStats a b c d e tr dp).tasksCompletedToday = 0) ∧
      (c = none → (buildStats a b c d e tr dp).tasksCompletedWeek = 0) ∧
      (d = none → (buildStats a b c d e tr dp).prospectsTotal = 0) ∧
      (e = none → (buildStats a b c d e tr dp).prospectsConverted = 0)) := by
  constructor
  · refine ⟨?_, ?_, ?_, ?_, ?_⟩
    · cases ha : a with
      | none => simp [buildStats]
      | some x => simpa [buildStats] using h a (by simp) x ha
    · cases hb : b with
      | none => simp [buildStats]
      | some x => simpa [buildStats] using h b (by simp) x hb
    · cases hc : c with
      | none => simp [buildStats]
      | some x => simpa [buildStats] using h c (by simp) x hc
    · cases hd : d with
      | none => simp [buildStats]
      | some x => simpa [buildStats] using h d (by simp) x hd
    · cases he : e with
      | none => simp [buildStats]
      | some x => simpa [buildStats] using h e (by simp) x he
  · refine ⟨?_, ?_, ?_, ?_, ?_⟩ <;> intro h0 <;> simp [buildStats, h0]

/-- C10 witness: with counts 3, null, 0, 7, null, the snapshot publishes
non-negative values everywhere and 0 for the null counts. -/
theorem claimC10_witness :
    (0 ≤ (buildStats (some 3) none (some 0) (some 7) none 0 0).tasksToday ∧
      0 ≤ (buildStats (some 3) none (some 0) (some 7) none 0 0).tasksCompletedToday ∧
      0 ≤ (buildStats (some 3) none (some 0) (some 7) none 0 0).tasksCompletedWeek ∧
      0 ≤ (buildStats (some 3) none (some 0) (some 7) none 0 0).prospectsTotal ∧
      0 ≤ (buildStats (some 3) none (some 0) (some 7) none 0 0).prospectsConverted) ∧
    ((some (3 : Int) = none →
        (buildStats (some 3) none (some 0) (some 7) none 0 0).tasksToday = 0) ∧
      ((none : Option Int) = none →
        (buildStats (some 3) none (some 0) (some 7) none 0 0).tasksCompletedToday = 0) ∧
      (some (0 : Int) = none →
        (buildStats (some 3) none (some 0) (some 7) none 0 0).tasksCompletedWeek = 0) ∧
      (some (7 : Int) = none →
        (buildStats (some 3) none (some 0) (some 7) none 0 0).prospectsTotal = 0) ∧
      ((none : Option Int) = none →
        (buildStats (some 3) none (some 0) (some 7) none 0 0).prospectsConverted = 0)) :=
  claimC10_buildStats_counts (some 3) none (some 0) (some 7) none 0 0 (by
    intro o ho x hx
    fin_cases ho <;> simp_all <;> omega)
